import Mathlib

/-!
Verification of the range-intersection classifier of the enontekio
repository (src/ops/ranges.rs), shallowly embedded in Lean 4.

The Rust code is generic over `T: PartialOrd` (with `Integer + Copy` added
where an inclusive upper bound is normalised through the successor
operation `*self.end() + T::one()`).  We embed the classifiers over an
arbitrary linear order and instantiate them at `Int` for the exact-domain
claims.  Fixed-width unsigned machine arithmetic (wrapping mod `2 ^ w`)
over `Nat` models the instantiations where overflow of the successor
operation matters.

A Rust `Range` `[s, e)` is represented by its two bounds `s e`, a
`RangeFrom` `[s, +inf)` by `s`, a `RangeTo` `(-inf, e)` by `e`, a
`RangeInclusive` `[s, e]` by `s e`, and `RangeFull` carries no data; each
`describe_intersection` impl becomes one function over the bounds of the
two ranges involved.
-/

namespace Enontekio

/-- Description of how two ranges intersect (enum `IntersectionDescription`,
ranges.rs lines 6-28). -/
inductive IntersectionDescription where
  | Below
  | BelowOverlap
  | Within
  | Same
  | Over
  | AboveOverlap
  | Above
  deriving DecidableEq, Repr

namespace IntersectionDescription

/-- Tests if there is any intersection (ranges.rs lines 32-38). -/
def is_any : IntersectionDescription → Bool
  | Below => false
  | Above => false
  | _ => true

/-- Tests if the range is fully within the other (ranges.rs lines 41-46). -/
def is_within : IntersectionDescription → Bool
  | Within => true
  | Same => true
  | _ => false

/-- Tests if the range is fully over the other (ranges.rs lines 49-54). -/
def is_over : IntersectionDescription → Bool
  | Over => true
  | Same => true
  | _ => false

end IntersectionDescription

variable {α : Type} [LinearOrder α]

/-- `impl Intersect<T, Range<T>> for Range<T>` (ranges.rs lines 62-90):
half-open `[s1, e1)` classified against half-open `[s2, e2)`. -/
def describe_intersection_range_range (s1 e1 s2 e2 : α) : IntersectionDescription :=
  if e1 = e2 then
    if s1 < s2 then .Over
    else if s1 > s2 then .Within
    else .Same
  else if e1 < e2 then
    if e1 ≤ s2 then .Below
    else if s1 < s2 then .BelowOverlap
    else .Within
  else if s1 < e2 then
    if s1 ≤ s2 then .Over
    else .AboveOverlap
  else .Above

/-- `impl Intersect<T, RangeFrom<T>> for Range<T>` (ranges.rs lines 92-102):
half-open `[s1, e1)` classified against left-bounded `[s2, +inf)`. -/
def describe_intersection_range_rangeFrom (s1 e1 s2 : α) : IntersectionDescription :=
  if e1 ≤ s2 then .Below
  else if s1 < s2 then .BelowOverlap
  else .Within

/-- `impl Intersect<T, RangeFull> for Range<T>` (ranges.rs lines 104-108):
half-open `[s1, e1)` classified against the fully unbounded range. -/
def describe_intersection_range_rangeFull (_s1 _e1 : α) : IntersectionDescription :=
  .Within

/-- `impl Intersect<T, RangeTo<T>> for Range<T>` (ranges.rs lines 110-120):
half-open `[s1, e1)` classified against right-bounded `(-inf, e2)`. -/
def describe_intersection_range_rangeTo (s1 e1 e2 : α) : IntersectionDescription :=
  if s1 ≥ e2 then .Above
  else if e1 > e2 then .AboveOverlap
  else .Within

/-- `impl Intersect<T, Range<T>> for RangeInclusive<T>` (ranges.rs lines
122-127): inclusive `[s1, e1]` is rewritten to `[s1, e1 + 1)` via
`*self.end() + T::one()` and delegated. Exact integer arithmetic. -/
def describe_intersection_rangeInclusive_range (s1 e1 s2 e2 : Int) : IntersectionDescription :=
  describe_intersection_range_range s1 (e1 + 1) s2 e2

/-- `impl Intersect<T, RangeFrom<T>> for RangeInclusive<T>` (ranges.rs lines
129-134). Exact integer arithmetic. -/
def describe_intersection_rangeInclusive_rangeFrom (s1 e1 s2 : Int) : IntersectionDescription :=
  describe_intersection_range_rangeFrom s1 (e1 + 1) s2

/-- `impl Intersect<T, RangeFull> for RangeInclusive<T>` (ranges.rs lines
136-140): returns `Within` directly, no successor computation appears in
the body. -/
def describe_intersection_rangeInclusive_rangeFull (_s1 _e1 : α) : IntersectionDescription :=
  .Within

/-- `impl Intersect<T, RangeTo<T>> for RangeInclusive<T>` (ranges.rs lines
142-147). Exact integer arithmetic. -/
def describe_intersection_rangeInclusive_rangeTo (s1 e1 e2 : Int) : IntersectionDescription :=
  describe_intersection_range_rangeTo s1 (e1 + 1) e2

/-- `impl Intersect<T, RangeInclusive<T>> for Range<T>` (ranges.rs lines
149-154): the other inclusive range is rewritten to
`[other.start, other.end + 1)` and delegated. Exact integer arithmetic. -/
def describe_intersection_range_rangeInclusive (s1 e1 s2 e2 : Int) : IntersectionDescription :=
  describe_intersection_range_range s1 e1 s2 (e2 + 1)

/-- `impl Intersect<T, RangeInclusive<T>> for RangeInclusive<T>` (ranges.rs
lines 156-161): self is rewritten to `[s1, e1 + 1)` and delegated to the
`Range` vs `RangeInclusive` impl. Exact integer arithmetic. -/
def describe_intersection_rangeInclusive_rangeInclusive (s1 e1 s2 e2 : Int) :
    IntersectionDescription :=
  describe_intersection_range_rangeInclusive s1 (e1 + 1) s2 e2

/-- The spec's successor operation on the discrete integer domain
(`x -> x + 1` for integers). -/
def successor (n : Int) : Int := n + 1

/-- Machine successor at unsigned bit width `w`: the `end + 1` computation
of the inclusive-bound normalisation under wrapping fixed-width
arithmetic, i.e. reduced mod `2 ^ w`. -/
def succ_machine (w e : Nat) : Nat := (e + 1) % 2 ^ w

/-- Machine-arithmetic version of `RangeInclusive` vs `Range`
(ranges.rs lines 122-127) at unsigned bit width `w`. -/
def describe_intersection_rangeInclusive_range_machine (w s1 e1 s2 e2 : Nat) :
    IntersectionDescription :=
  describe_intersection_range_range s1 (succ_machine w e1) s2 e2

/-- Machine-arithmetic version of `RangeInclusive` vs `RangeFrom`
(ranges.rs lines 129-134) at unsigned bit width `w`. -/
def describe_intersection_rangeInclusive_rangeFrom_machine (w s1 e1 s2 : Nat) :
    IntersectionDescription :=
  describe_intersection_range_rangeFrom s1 (succ_machine w e1) s2

/-- Machine-arithmetic version of `RangeInclusive` vs `RangeTo`
(ranges.rs lines 142-147) at unsigned bit width `w`. -/
def describe_intersection_rangeInclusive_rangeTo_machine (w s1 e1 e2 : Nat) :
    IntersectionDescription :=
  describe_intersection_range_rangeTo s1 (succ_machine w e1) e2

/-- Machine-arithmetic version of `RangeInclusive` vs `RangeInclusive`
(ranges.rs lines 156-161, via lines 149-154) at unsigned bit width `w`:
both inclusive ends are normalised by the wrapping successor. -/
def describe_intersection_rangeInclusive_rangeInclusive_machine (w s1 e1 s2 e2 : Nat) :
    IntersectionDescription :=
  describe_intersection_range_range s1 (succ_machine w e1) s2 (succ_machine w e2)

/-- The ordered rule table for the bounded-vs-bounded case, written from
the spec's wording (section 4.1, Case both ranges bounded): the
end-equality branch first, then the `e1 < e2` branch, then the `e1 > e2`
branch guarded by `s1 < e2`, then `Above`. -/
def spec_rule_table_bounded (s1 e1 s2 e2 : Int) : IntersectionDescription :=
  if e1 = e2 then
    if s1 < s2 then .Over
    else if s1 > s2 then .Within
    else .Same
  else if e1 < e2 then
    if e1 ≤ s2 then .Below
    else if s1 < s2 then .BelowOverlap
    else .Within
  else if s1 < e2 then
    if s1 ≤ s2 then .Over
    else .AboveOverlap
  else .Above

/-- Mirror map on verdicts: Below and Above swap, BelowOverlap and
AboveOverlap swap, Within and Over swap, Same is fixed. -/
def mirror : IntersectionDescription → IntersectionDescription
  | .Below => .Above
  | .BelowOverlap => .AboveOverlap
  | .Within => .Over
  | .Same => .Same
  | .Over => .Within
  | .AboveOverlap => .BelowOverlap
  | .Above => .Below

/- Sanity checks replicating the unit tests of ranges.rs. -/

example : describe_intersection_range_range (3 : Int) 10 11 11 = .Below := by decide
example : describe_intersection_range_range (3 : Int) 10 10 11 = .Below := by decide
example : describe_intersection_range_range (3 : Int) 10 9 11 = .BelowOverlap := by decide
example : describe_intersection_range_range (3 : Int) 10 9 10 = .Over := by decide
example : describe_intersection_range_range (3 : Int) 10 3 10 = .Same := by decide
example : describe_intersection_range_range (3 : Int) 10 2 11 = .Within := by decide
example : describe_intersection_range_range (3 : Int) 10 2 9 = .AboveOverlap := by decide
example : describe_intersection_range_range (3 : Int) 10 2 3 = .Above := by decide
example : describe_intersection_range_rangeFrom (3 : Int) 10 10 = .Below := by decide
example : describe_intersection_range_rangeFrom (3 : Int) 10 9 = .BelowOverlap := by decide
example : describe_intersection_range_rangeFrom (3 : Int) 10 2 = .Within := by decide
example : describe_intersection_range_rangeTo (3 : Int) 10 10 = .Within := by decide
example : describe_intersection_range_rangeTo (3 : Int) 10 9 = .AboveOverlap := by decide
example : describe_intersection_range_rangeTo (3 : Int) 10 3 = .Above := by decide
example : describe_intersection_rangeInclusive_range 3 9 3 10 = .Same := by decide
example : describe_intersection_rangeInclusive_rangeInclusive 3 9 3 9 = .Same := by decide
example : describe_intersection_range_rangeInclusive 3 10 3 9 = .Same := by decide
example : describe_intersection_rangeInclusive_rangeFrom 3 9 9 = .BelowOverlap := by decide

/-- C1: for every pair of half-open bounded ranges `[s1, e1)` and
`[s2, e2)` (degenerate and inverted included), `describe_intersection`
agrees with the spec's ordered rule table: end-equality tested first
(Over when `s1 < s2`, Within when `s1 > s2`, Same when equal), then the
`e1 < e2` branch (Below when `e1 ≤ s2`, BelowOverlap when `s1 < s2`,
otherwise Within), then the `e1 > e2` branch guarded by `s1 < e2` (Over
when `s1 ≤ s2`, otherwise AboveOverlap), and Above when none hold. -/
theorem describe_intersection_follows_spec_rule_table (s1 e1 s2 e2 : Int) :
    describe_intersection_range_range s1 e1 s2 e2 = spec_rule_table_bounded s1 e1 s2 e2 :=
  rfl

/-- C2: every inclusive-ended classification equals first rewriting the
inclusive range to the half-open range `[start, successor end)` and then
classifying that, for every supported other shape (bounded, left-bounded,
right-bounded, inclusive); symmetrically a half-open self against an
inclusive other equals classification against
`[other.start, successor other.end)`. -/
theorem inclusive_normalization_refinement (s1 e1 s2 e2 : Int) :
    describe_intersection_rangeInclusive_range s1 e1 s2 e2
      = describe_intersection_range_range s1 (successor e1) s2 e2 ∧
    describe_intersection_rangeInclusive_rangeFrom s1 e1 s2
      = describe_intersection_range_rangeFrom s1 (successor e1) s2 ∧
    describe_intersection_rangeInclusive_rangeTo s1 e1 e2
      = describe_intersection_range_rangeTo s1 (successor e1) e2 ∧
    describe_intersection_rangeInclusive_rangeInclusive s1 e1 s2 e2
      = describe_intersection_range_range s1 (successor e1) s2 (successor e2) ∧
    describe_intersection_range_rangeInclusive s1 e1 s2 e2
      = describe_intersection_range_range s1 e1 s2 (successor e2) :=
  ⟨rfl, rfl, rfl, rfl, rfl⟩

/-- C6: classifying any half-open bounded self or any inclusive self
against the fully unbounded range returns Within unconditionally. -/
theorem unbounded_other_always_within (s1 e1 : Int) :
    describe_intersection_range_rangeFull s1 e1 = .Within ∧
    describe_intersection_rangeInclusive_rangeFull s1 e1 = .Within :=
  ⟨rfl, rfl⟩

/-- C8: classifying any half-open bounded range against itself returns
Same, whatever its start and end values. -/
theorem describe_intersection_reflexive_same (s e : Int) :
    describe_intersection_range_range s e s e = .Same := by
  unfold describe_intersection_range_range
  simp

/-- C3 (counterexample): the degenerate self `[3, 3)` sits inside
`[3, 10)` by direct boundary comparison (`3 ≤ 3` and `3 ≤ 10`), yet the
classifier returns Below there, so `is_within` is false and the claimed
equivalence fails. -/
theorem is_within_containment_counterexample :
    ¬ (((describe_intersection_range_range (3 : Int) 3 3 10).is_within = true) ↔
      ((3 : Int) ≤ 3 ∧ (3 : Int) ≤ 10)) := by
  decide

/-- C3 (amended): for half-open bounded ranges, `is_within` of the
verdict holds iff `s2 ≤ s1` and `e1 ≤ e2` and moreover either `s2 < e1`
or `e1 = e2`; the extra condition excludes exactly the degenerate inputs
with `e1 < e2` and `e1 ≤ s2 ≤ s1`, where the Below branch fires first. -/
theorem is_within_containment_amended (s1 e1 s2 e2 : Int) :
    (describe_intersection_range_range s1 e1 s2 e2).is_within = true ↔
      (s2 ≤ s1 ∧ e1 ≤ e2 ∧ (s2 < e1 ∨ e1 = e2)) := by
  unfold describe_intersection_range_range
  split_ifs <;> simp [IntersectionDescription.is_within] <;> omega

/-- Swapping the two ranges mirrors the verdict. -/
theorem describe_intersection_swap (s1 e1 s2 e2 : Int) :
    describe_intersection_range_range s2 e2 s1 e1
      = mirror (describe_intersection_range_range s1 e1 s2 e2) := by
  unfold describe_intersection_range_range
  split_ifs <;> first | rfl | omega

/-- Mirroring fixes exactly the Same verdict. -/
theorem mirror_eq_same_iff (d : IntersectionDescription) :
    mirror d = .Same ↔ d = .Same := by
  cases d <;> simp [mirror]

/-- C4: for all half-open bounded ranges, classifying with the arguments
swapped yields the mirror image of the original verdict, under the swap
Below/Above, BelowOverlap/AboveOverlap, Within/Over with Same fixed; in
particular the two orders agree on Same. -/
theorem describe_intersection_mirror_antisymmetry (s1 e1 s2 e2 : Int) :
    describe_intersection_range_range s2 e2 s1 e1
        = mirror (describe_intersection_range_range s1 e1 s2 e2) ∧
      (describe_intersection_range_range s1 e1 s2 e2 = .Same ↔
        describe_intersection_range_range s2 e2 s1 e1 = .Same) := by
  refine ⟨describe_intersection_swap s1 e1 s2 e2, ?_⟩
  rw [describe_intersection_swap s1 e1 s2 e2, mirror_eq_same_iff]

/-- C7: classifying a half-open bounded self `[s1, e1)` against a
left-bounded other `[s2, +inf)` yields Below iff `e1 ≤ s2`, BelowOverlap
iff `s2 < e1` and `s1 < s2`, Within iff `s2 < e1` and `s2 ≤ s1`, and
never yields Over, Same, AboveOverlap or Above. -/
theorem rangeFrom_other_characterization (s1 e1 s2 : Int) :
    (describe_intersection_range_rangeFrom s1 e1 s2 = .Below ↔ e1 ≤ s2) ∧
    (describe_intersection_range_rangeFrom s1 e1 s2 = .BelowOverlap ↔ s2 < e1 ∧ s1 < s2) ∧
    (describe_intersection_range_rangeFrom s1 e1 s2 = .Within ↔ s2 < e1 ∧ s2 ≤ s1) ∧
    describe_intersection_range_rangeFrom s1 e1 s2 ≠ .Over ∧
    describe_intersection_range_rangeFrom s1 e1 s2 ≠ .Same ∧
    describe_intersection_range_rangeFrom s1 e1 s2 ≠ .AboveOverlap ∧
    describe_intersection_range_rangeFrom s1 e1 s2 ≠ .Above := by
  unfold describe_intersection_range_rangeFrom
  split_ifs <;> refine ⟨?_, ?_, ?_, ?_, ?_, ?_, ?_⟩ <;> simp <;> omega

/-- C9: a zero-width self `[x, x)` located at or below the start of a
non-empty other `[s2, e2)` (with `x ≤ s2 < e2`) classifies as Below, not
Within; by contrast the zero-width `[5, 5)` inside `[3, 10)` classifies
as Within. -/
theorem empty_self_at_other_start_below (x s2 e2 : Int) (h1 : x ≤ s2) (h2 : s2 < e2) :
    describe_intersection_range_range x x s2 e2 = .Below ∧
    describe_intersection_range_range (5 : Int) 5 3 10 = .Within := by
  constructor
  · unfold describe_intersection_range_range
    split_ifs <;> first | rfl | omega
  · decide

/-- Witness for C9 at `x = 3`, `[s2, e2) = [3, 10)`: exactly the claim's
example `(3..3)` vs `(3..10)`. -/
theorem empty_self_at_other_start_below_witness :
    (3 : Int) ≤ 3 ∧ (3 : Int) < 10 ∧
      (describe_intersection_range_range (3 : Int) 3 3 10 = .Below ∧
        describe_intersection_range_range (5 : Int) 5 3 10 = .Within) :=
  ⟨by decide, by decide, empty_self_at_other_start_below 3 3 10 (by decide) (by decide)⟩

/-- C5: when the inclusive end `e1` of the self range is strictly below
the maximum representable value `2 ^ w - 1` of the unsigned width-`w`
domain, the machine successor agrees with exact arithmetic and the
inclusive-self classifications against bounded, left-bounded and
right-bounded others equal their exact-arithmetic counterparts for every
other range, including others whose exclusive end is the maximum value;
against an inclusive other the same holds once the other's inclusive end
is also below the maximum (it too is normalised through the successor);
at the maximum value itself the machine successor wraps to 0 instead of
producing `2 ^ w - 1 + 1`. -/
theorem inclusive_successor_no_overflow (w s1 e1 s2 e2 : Nat)
    (h1 : e1 < 2 ^ w - 1) :
    succ_machine w e1 = e1 + 1 ∧
    describe_intersection_rangeInclusive_range_machine w s1 e1 s2 e2
      = describe_intersection_range_range s1 (e1 + 1) s2 e2 ∧
    describe_intersection_rangeInclusive_rangeFrom_machine w s1 e1 s2
      = describe_intersection_range_rangeFrom s1 (e1 + 1) s2 ∧
    describe_intersection_rangeInclusive_rangeTo_machine w s1 e1 e2
      = describe_intersection_range_rangeTo s1 (e1 + 1) e2 ∧
    (e2 < 2 ^ w - 1 →
      describe_intersection_rangeInclusive_rangeInclusive_machine w s1 e1 s2 e2
        = describe_intersection_range_range s1 (e1 + 1) s2 (e2 + 1)) ∧
    succ_machine w (2 ^ w - 1) = 0 ∧
    succ_machine w (2 ^ w - 1) ≠ 2 ^ w - 1 + 1 := by
  have hp : 0 < 2 ^ w := Nat.pos_pow_of_pos w (by norm_num)
  have hs1 : succ_machine w e1 = e1 + 1 := by
    unfold succ_machine
    exact Nat.mod_eq_of_lt (by omega)
  have hmax : succ_machine w (2 ^ w - 1) = 0 := by
    unfold succ_machine
    have h : 2 ^ w - 1 + 1 = 2 ^ w := by omega
    rw [h, Nat.mod_self]
  refine ⟨hs1, ?_, ?_, ?_, ?_, hmax, ?_⟩
  · unfold describe_intersection_rangeInclusive_range_machine
    rw [hs1]
  · unfold describe_intersection_rangeInclusive_rangeFrom_machine
    rw [hs1]
  · unfold describe_intersection_rangeInclusive_rangeTo_machine
    rw [hs1]
  · intro h2
    have hs2 : succ_machine w e2 = e2 + 1 := by
      unfold succ_machine
      exact Nat.mod_eq_of_lt (by omega)
    unfold describe_intersection_rangeInclusive_rangeInclusive_machine
    rw [hs1, hs2]
  · rw [hmax]
    omega

/-- Witness for C5 at width 8 with inclusive self `[3, 9]` and other
bounds 5 and 11; the self's inclusive end 9 is below the maximum value
255. -/
theorem inclusive_successor_no_overflow_witness :
    (9 : Nat) < 2 ^ 8 - 1 ∧
      (succ_machine 8 9 = 9 + 1 ∧
        describe_intersection_rangeInclusive_range_machine 8 3 9 5 11
          = describe_intersection_range_range 3 (9 + 1) 5 11 ∧
        describe_intersection_rangeInclusive_rangeFrom_machine 8 3 9 5
          = describe_intersection_range_rangeFrom 3 (9 + 1) 5 ∧
        describe_intersection_rangeInclusive_rangeTo_machine 8 3 9 11
          = describe_intersection_range_rangeTo 3 (9 + 1) 11 ∧
        ((11 : Nat) < 2 ^ 8 - 1 →
          describe_intersection_rangeInclusive_rangeInclusive_machine 8 3 9 5 11
            = describe_intersection_range_range 3 (9 + 1) 5 (11 + 1)) ∧
        succ_machine 8 (2 ^ 8 - 1) = 0 ∧
        succ_machine 8 (2 ^ 8 - 1) ≠ 2 ^ 8 - 1 + 1) :=
  ⟨by decide, inclusive_successor_no_overflow 8 3 9 5 11 (by decide)⟩

/-- C10: classifying an inclusive self against the fully unbounded range
returns Within for every start and end over the machine domain, in
particular when the inclusive end equals the maximum representable value
`2 ^ w - 1`; the definition embedding ranges.rs lines 136-140 never
invokes the successor, so no overflow is possible. -/
theorem inclusive_vs_unbounded_no_successor (w s1 e1 : Nat) :
    describe_intersection_rangeInclusive_rangeFull s1 e1 = .Within ∧
    describe_intersection_rangeInclusive_rangeFull s1 (2 ^ w - 1) = .Within :=
  ⟨rfl, rfl⟩

end Enontekio
